import Mathlib

/-!
Shallow embedding of the likeboost task manager (`src/app.py`): the task
store (SQLite table `tasks`), the Like-API client `hit_like`, the notifier
`send_group_message`, the run engine `run_all_tasks_sync`, the panel add
route `add_task`, and the chat listing command `cmd_tasks`.

Modelling conventions:

* UTC timestamps are integers (seconds).  The Python code stores
  `datetime.isoformat()` strings and compares them with SQL `<`; for
  equal-format UTC ISO strings lexicographic order is chronological order,
  so `Int` with `<` is faithful.  `timedelta(days=d)` is `d * 86400`.
* The SQLite table is a `Store`: `nextId` models AUTOINCREMENT and `rows`
  holds the rows newest-first, so `SELECT ... ORDER BY id DESC` is the
  list itself.  `Store.WF` records what AUTOINCREMENT guarantees: ids
  strictly decrease along `rows` and are all below `nextId`.
* A parsed JSON response body (`resp.json()`) is an association list
  `Dict`; Python's `result.get(k, d)` is `dget` (defaults already
  stringified, since the message template interpolates them into text),
  and Python truthiness of a dict (`if not result`) is non-emptiness.
* The external world is an `Env`: `api region uid` is the outcome of the
  HTTP GET inside `hit_like` (transport error, or a status code with a
  parsed or unparsable body), and `notify_ok text` says whether the
  Telegram send inside `send_group_message` succeeds.  Exceptions are
  modelled by `Option` exactly at the boundaries where the Python code
  catches them; the Lean functions are total, reflecting that no
  exception escapes those boundaries.
-/

namespace Royalkaauto

/-- A row of the `tasks` table (`db_init`, src/app.py lines 41-52). -/
structure Task where
  id : Nat
  region : String
  uid : String
  days : Int
  expiry_utc : Int
  added_by : String
  added_at_utc : Int
  active : Bool
  deriving DecidableEq, Repr

/-- The tasks table: `nextId` is the AUTOINCREMENT counter, `rows` the rows
newest-first (descending id under `Store.WF`). -/
structure Store where
  nextId : Nat
  rows : List Task
  deriving DecidableEq, Repr

/-- The freshly created table of `db_init`: no rows, AUTOINCREMENT at 1. -/
def Store.empty : Store := ⟨1, []⟩

/-- Well-formedness that SQLite AUTOINCREMENT guarantees for the model:
ids strictly decrease along the newest-first `rows`, and every id is below
the counter `nextId`. -/
def Store.WF (s : Store) : Prop :=
  s.rows.Pairwise (fun a b => b.id < a.id) ∧ ∀ t ∈ s.rows, t.id < s.nextId

instance (s : Store) : Decidable s.WF := by
  unfold Store.WF; infer_instance

/-- Python `str.strip()`: drop leading and trailing whitespace.  Defined
by structural recursion on the character list so that concrete instances
evaluate by kernel reduction. -/
def pystrip (s : String) : String :=
  ⟨((s.data.dropWhile Char.isWhitespace).reverse.dropWhile
      Char.isWhitespace).reverse⟩

/-- Embedding of `db_add_task` (src/app.py lines 56-66): strip region and
uid, compute `expiry = now + timedelta(days=days)`, insert with
`active=1`.  The Python code reads the clock twice (once for `expiry`,
once for `added_at`); the model uses a single instant `now` for both. -/
def db_add_task (now : Int) (region uid : String) (days : Int)
    (added_by : String) (s : Store) : Store :=
  let t : Task :=
    { id := s.nextId
      region := pystrip region
      uid := pystrip uid
      days := days
      expiry_utc := now + days * 86400
      added_by := added_by
      added_at_utc := now
      active := true }
  { nextId := s.nextId + 1, rows := t :: s.rows }

/-- Embedding of `db_list_tasks` (src/app.py lines 68-77): all rows, or
only the rows with `active=1`, ordered by id descending (which, under
`Store.WF`, is the stored order). -/
def db_list_tasks (include_inactive : Bool) (s : Store) : List Task :=
  if include_inactive then s.rows else s.rows.filter (fun t => t.active)

/-- The per-row effect of the UPDATE in `db_prune_expired`:
`SET active=0 WHERE active=1 AND expiry_utc < now`. -/
def prune_row (now : Int) (t : Task) : Task :=
  if t.active && decide (t.expiry_utc < now) then { t with active := false } else t

/-- Embedding of `db_prune_expired` (src/app.py lines 79-85). -/
def db_prune_expired (now : Int) (s : Store) : Store :=
  { s with rows := s.rows.map (prune_row now) }

/-- Embedding of the panel route `add_task` (src/app.py lines 236-247):
strip the form fields, reject (flash a warning, `false`) when region or
uid is empty, otherwise insert via `db_add_task` with `added_by="panel"`
(`true`).  Note the route never validates `days`. -/
def add_task (now : Int) (region uid : String) (days : Int) (s : Store) :
    Store × Bool :=
  let region := pystrip region
  let uid := pystrip uid
  if region = "" || uid = "" then (s, false)
  else (db_add_task now region uid days "panel" s, true)

/-- A parsed JSON object body: association list of fields, values already
rendered as the text the message template would interpolate. -/
abbrev Dict := List (String × String)

/-- Python `result.get(key, default)` on a parsed body. -/
def dget (d : Dict) (key dflt : String) : String :=
  match d.find? (fun p => p.1 = key) with
  | some p => p.2
  | none => dflt

/-- Outcome of the HTTP GET inside `hit_like`: the request itself raised
(timeout, connection error), or a response arrived with a status code and
a body that either parses to an object (`some`) or raises in
`resp.json()` (`none`). -/
inductive ApiOutcome where
  | transport_error
  | response (status : Nat) (body : Option Dict)

/-- Embedding of `hit_like` (src/app.py lines 149-157): a transport error
is caught and yields `none`; a non-200 status yields `none` before the
body is parsed; a 200 status yields the parsed body, with a parse
exception caught into `none`. -/
def hit_like (o : ApiOutcome) : Option Dict :=
  match o with
  | .transport_error => none
  | .response status body => if status = 200 then body else none

/-- The external world as the code observes it: what the Like-API GET for
a given region and uid does, and whether a Telegram group send of a given
text succeeds. -/
structure Env where
  api : String → String → ApiOutcome
  notify_ok : String → Bool

/-- Embedding of `send_group_message` (src/app.py lines 141-147): attempt
the Telegram send; a failure is caught and logged, so the function always
returns — `some text` when delivered, `none` when the failure was
swallowed. -/
def send_group_message (env : Env) (text : String) : Option String :=
  if env.notify_ok text then some text else none

/-- The fixed message template of `run_all_tasks_sync` (src/app.py lines
175-184), with Python `.get` defaults `'N/A'` and `0`. -/
def fmt_message (t : Task) (result : Dict) : String :=
  "✅ *Likes Sent Successfully*\n" ++
  "*Player:* " ++ dget result "PlayerName" "N/A" ++ "\n" ++
  "*UID:* `" ++ t.uid ++ "`\n" ++
  "*Region:* " ++ t.region ++ "\n" ++
  "*Level:* " ++ dget result "Level" "N/A" ++ "\n" ++
  "*Before:* " ++ dget result "LikesbeforeCommand" "0" ++ "\n" ++
  "*After:* " ++ dget result "LikesafterCommand" "0" ++ "\n" ++
  "*Given:* " ++ dget result "LikesGivenByAPI" "0"

/-- Observable outcome of one run: the returned counter `sent`, the
messages passed to `send_group_message` in order (`attempted`), and the
subset the Telegram send actually delivered (`delivered`). -/
structure RunResult where
  sent : Nat
  attempted : List String
  delivered : List String
  deriving DecidableEq, Repr

/-- The `for t in tasks` loop of `run_all_tasks_sync` (src/app.py lines
171-186).  `if not result: continue` skips both a `None` result and a
result that parsed to an empty object (Python dict truthiness). -/
def run_loop (env : Env) : List Task → RunResult
  | [] => ⟨0, [], []⟩
  | t :: ts =>
    let rest := run_loop env ts
    match hit_like (env.api t.region t.uid) with
    | none => rest
    | some result =>
      if result.isEmpty then rest
      else
        let msg := fmt_message t result
        ⟨rest.sent + 1, msg :: rest.attempted,
          (send_group_message env msg).toList ++ rest.delivered⟩

/-- Embedding of `run_all_tasks_sync` (src/app.py lines 167-187): prune,
list active, loop.  Returns the store after the prune together with the
run's observable outcome. -/
def run_all_tasks_sync (env : Env) (now : Int) (s : Store) :
    Store × RunResult :=
  let s1 := db_prune_expired now s
  (s1, run_loop env (db_list_tasks false s1))

/-- One line of the `/tasks` reply (src/app.py line 138). -/
def fmt_task_line (t : Task) : String :=
  "#" ++ toString t.id ++ " • " ++ t.region ++ " • " ++ t.uid ++
  " • exp: " ++ toString t.expiry_utc

/-- Embedding of the chat command `cmd_tasks` (src/app.py lines 130-139):
prune, list active, reply "No active tasks." when empty, otherwise join
the first 50 lines. -/
def cmd_tasks (now : Int) (s : Store) : Store × String :=
  let s1 := db_prune_expired now s
  let tasks := db_list_tasks false s1
  if tasks.isEmpty then (s1, "No active tasks.")
  else (s1, String.intercalate "\n" ((tasks.take 50).map fmt_task_line))

/-- Whether the run loop treats a Like-API result as present: not `None`
and not an empty parsed object (`if not result` in Python). -/
def truthy : Option Dict → Bool
  | none => false
  | some d => !d.isEmpty

/-- Every store-mutating entry point of src/app.py, as one step:
`db_add_task` (called by `cmd_autolike` and, through `add_task`, by the
panel), the panel route `add_task` itself, `db_prune_expired` (called
directly by `dashboard`, `api_tasks` and `cmd_tasks`), the run engine
`run_all_tasks_sync`, and the listing reads, which leave the store as
is. -/
inductive Op where
  | add (now : Int) (region uid : String) (days : Int) (added_by : String)
  | panel_add (now : Int) (region uid : String) (days : Int)
  | prune (now : Int)
  | run (env : Env) (now : Int)
  | tasks_cmd (now : Int)
  | list_active
  | list_all

/-- The store after one operation. -/
def applyOp : Op → Store → Store
  | .add now region uid days added_by, s => db_add_task now region uid days added_by s
  | .panel_add now region uid days, s => (add_task now region uid days s).1
  | .prune now, s => db_prune_expired now s
  | .run env now, s => (run_all_tasks_sync env now s).1
  | .tasks_cmd now, s => (cmd_tasks now s).1
  | .list_active, s => s
  | .list_all, s => s

/-- The instant at which an operation invokes `db_prune_expired`, if it
does. -/
def pruneTime : Op → Option Int
  | .prune now => some now
  | .run _ now => some now
  | .tasks_cmd now => some now
  | _ => none

/-- SQL `SELECT * FROM tasks WHERE id = i` on the model: the row with a
given id (unique under `Store.WF`). -/
def taskById (s : Store) (i : Nat) : Option Task :=
  s.rows.find? (fun t => t.id == i)

/-! Helper lemmas shared by the claim theorems. -/

/-- The pruning UPDATE touches no field but `active`. -/
theorem prune_row_fields (now : Int) (t : Task) :
    (prune_row now t).id = t.id ∧ (prune_row now t).region = t.region ∧
    (prune_row now t).uid = t.uid ∧ (prune_row now t).days = t.days ∧
    (prune_row now t).expiry_utc = t.expiry_utc ∧
    (prune_row now t).added_by = t.added_by ∧
    (prune_row now t).added_at_utc = t.added_at_utc := by
  unfold prune_row; split <;> simp

/-- The pruning UPDATE leaves `active` true exactly on rows that were
active and not yet expired. -/
theorem prune_row_active (now : Int) (t : Task) :
    (prune_row now t).active = (t.active && !decide (t.expiry_utc < now)) := by
  unfold prune_row; split <;> rename_i h <;> simp_all

/-- A row the WHERE clause does not select is unchanged. -/
theorem prune_row_id_of_not_hit (now : Int) (t : Task)
    (h : ¬(t.active = true ∧ t.expiry_utc < now)) : prune_row now t = t := by
  unfold prune_row; split <;> rename_i hc
  · exact absurd (by simpa using hc) h
  · rfl

/-- A row the WHERE clause selects gets `active=0` and nothing else. -/
theorem prune_row_of_hit (now : Int) (t : Task)
    (h : t.active = true ∧ t.expiry_utc < now) :
    prune_row now t = { t with active := false } := by
  unfold prune_row
  have : (t.active && decide (t.expiry_utc < now)) = true := by
    simp [h.1, h.2]
  simp [this]

/-- Pruning twice at one instant is pruning once, row by row. -/
theorem prune_row_idem (now : Int) (t : Task) :
    prune_row now (prune_row now t) = prune_row now t := by
  unfold prune_row
  split <;> rename_i h <;> simp_all

/-- What the run loop computes, in closed form: the count is the number
of listed tasks whose Like-API result is truthy, the attempted messages
are the formatted messages of exactly those tasks in list order, and the
delivered ones are the attempted ones the Telegram send accepted. -/
theorem run_loop_spec (env : Env) (l : List Task) :
    (run_loop env l).sent =
      (l.filter (fun t => truthy (hit_like (env.api t.region t.uid)))).length ∧
    (run_loop env l).attempted =
      (l.filter (fun t => truthy (hit_like (env.api t.region t.uid)))).map
        (fun t => fmt_message t ((hit_like (env.api t.region t.uid)).getD [])) ∧
    (run_loop env l).delivered =
      (run_loop env l).attempted.filter env.notify_ok := by
  induction l with
  | nil => simp [run_loop]
  | cons t ts ih =>
    obtain ⟨ih1, ih2, ih3⟩ := ih
    by_cases h : truthy (hit_like (env.api t.region t.uid)) = true
    · obtain ⟨result, hres, hne⟩ :
          ∃ r, hit_like (env.api t.region t.uid) = some r ∧ r.isEmpty = false := by
        cases hr : hit_like (env.api t.region t.uid) with
        | none => rw [hr] at h; simp [truthy] at h
        | some r =>
          refine ⟨r, rfl, ?_⟩
          rw [hr] at h; simpa [truthy] using h
      have htr : truthy (some result) = true := by simp [truthy, hne]
      refine ⟨?_, ?_, ?_⟩
      · simp [run_loop, hres, hne, List.filter_cons, htr, ih1]
      · simp [run_loop, hres, hne, List.filter_cons, htr, ih2]
      · simp only [run_loop, hres, hne, Bool.false_eq_true, if_false, ih3]
        simp only [List.filter_cons, hres, htr, if_true, ih2,
          send_group_message]
        by_cases hn : env.notify_ok (fmt_message t result) = true <;>
          simp [hn, ih2, ih3]
    · have hskip : run_loop env (t :: ts) = run_loop env ts := by
        cases hr : hit_like (env.api t.region t.uid) with
        | none => simp [run_loop, hr]
        | some r =>
          have : r.isEmpty = true := by
            rw [hr] at h; simpa [truthy] using h
          simp [run_loop, hr, this]
      have hf : truthy (hit_like (env.api t.region t.uid)) = false := by
        simpa using h
      refine ⟨?_, ?_, ?_⟩
      · rw [hskip, ih1, List.filter_cons, hf]; simp
      · rw [hskip, ih2, List.filter_cons, hf]; simp
      · rw [hskip, ih3]

/-- Unfolding of the insert of `db_add_task`. -/
theorem db_add_task_rows (now : Int) (region uid : String) (days : Int)
    (added_by : String) (s : Store) :
    (db_add_task now region uid days added_by s).rows =
      { id := s.nextId, region := pystrip region, uid := pystrip uid, days := days,
        expiry_utc := now + days * 86400, added_by := added_by,
        added_at_utc := now, active := true } :: s.rows := rfl

/-- The AUTOINCREMENT counter after an insert. -/
theorem db_add_task_nextId (now : Int) (region uid : String) (days : Int)
    (added_by : String) (s : Store) :
    (db_add_task now region uid days added_by s).nextId = s.nextId + 1 := rfl

/-- The run engine's only store effect is the initial prune. -/
theorem run_all_tasks_sync_fst (env : Env) (now : Int) (s : Store) :
    (run_all_tasks_sync env now s).1 = db_prune_expired now s := rfl

/-- The `/tasks` command's only store effect is the initial prune. -/
theorem cmd_tasks_fst (now : Int) (s : Store) :
    (cmd_tasks now s).1 = db_prune_expired now s := by
  unfold cmd_tasks
  dsimp only
  split <;> rfl

/-- Searching by id commutes with the pruning map, since pruning
preserves ids. -/
theorem find?_map_prune (now : Int) (i : Nat) (l : List Task) :
    (l.map (prune_row now)).find? (fun t => t.id == i) =
      (l.find? (fun t => t.id == i)).map (prune_row now) := by
  induction l with
  | nil => rfl
  | cons a l ih =>
    simp only [List.map_cons, List.find?_cons]
    have hid : (prune_row now a).id = a.id := (prune_row_fields now a).1
    by_cases h : (a.id == i) = true
    · simp [hid, h]
    · have h' : (a.id == i) = false := by simpa using h
      simp [hid, h', ih]

/-- A row found by id is a row of the table bearing that id. -/
theorem taskById_mem (s : Store) (i : Nat) (t : Task)
    (h : taskById s i = some t) : t ∈ s.rows ∧ t.id = i := by
  unfold taskById at h
  exact ⟨List.mem_of_find?_eq_some h, by simpa using List.find?_some h⟩

/-- Inserting never disturbs the row a smaller id finds. -/
theorem taskById_db_add_task (now : Int) (region uid : String) (days : Int)
    (added_by : String) (s : Store) (hwf : s.WF) (i : Nat) (t : Task)
    (h : taskById s i = some t) :
    taskById (db_add_task now region uid days added_by s) i = some t := by
  obtain ⟨hmem, hid⟩ := taskById_mem s i t h
  have hlt : i < s.nextId := hid ▸ hwf.2 t hmem
  have hne : (s.nextId == i) = false := by
    simp [Nat.ne_of_gt hlt]
  unfold taskById at h ⊢
  rw [db_add_task_rows, List.find?_cons]
  simp only [hne]
  exact h

/-- Well-formedness survives an insert. -/
theorem WF_db_add_task (now : Int) (region uid : String) (days : Int)
    (added_by : String) (s : Store) (hwf : s.WF) :
    (db_add_task now region uid days added_by s).WF := by
  obtain ⟨hp, hb⟩ := hwf
  constructor
  · rw [db_add_task_rows]
    exact List.Pairwise.cons (fun t ht => hb t ht) hp
  · intro t ht
    rw [db_add_task_rows] at ht
    rw [db_add_task_nextId]
    rcases List.mem_cons.mp ht with h | h
    · rw [h]
      exact Nat.lt_succ_self _
    · exact Nat.lt_trans (hb t h) (Nat.lt_succ_self _)

/-- Well-formedness survives pruning. -/
theorem WF_db_prune_expired (now : Int) (s : Store) (hwf : s.WF) :
    (db_prune_expired now s).WF := by
  obtain ⟨hp, hb⟩ := hwf
  constructor
  · exact hp.map _ (fun a b hab => by
      simpa [(prune_row_fields now a).1, (prune_row_fields now b).1] using hab)
  · intro t ht
    obtain ⟨u, hu, rfl⟩ := List.mem_map.mp ht
    simpa [(prune_row_fields now u).1] using hb u hu

/-- Well-formedness survives every entry point. -/
theorem WF_applyOp (op : Op) (s : Store) (hwf : s.WF) : (applyOp op s).WF := by
  cases op with
  | add now region uid days added_by =>
    exact WF_db_add_task now region uid days added_by s hwf
  | panel_add now region uid days =>
    show ((add_task now region uid days s).1).WF
    unfold add_task
    dsimp only
    split
    · exact hwf
    · exact WF_db_add_task now _ _ days "panel" s hwf
  | prune now => exact WF_db_prune_expired now s hwf
  | run env now =>
    show ((run_all_tasks_sync env now s).1).WF
    rw [run_all_tasks_sync_fst]
    exact WF_db_prune_expired now s hwf
  | tasks_cmd now =>
    show ((cmd_tasks now s).1).WF
    rw [cmd_tasks_fst]
    exact WF_db_prune_expired now s hwf
  | list_active => exact hwf
  | list_all => exact hwf

/-- How one entry point rewrites the row a given id finds: unchanged
unless the operation pruned, in which case the row went through the
pruning UPDATE at the operation's instant. -/
theorem taskById_step (op : Op) (s : Store) (hwf : s.WF) (i : Nat)
    (t t' : Task) (h : taskById s i = some t)
    (h' : taskById (applyOp op s) i = some t') :
    (pruneTime op = none ∧ t' = t) ∨
      ∃ n, pruneTime op = some n ∧ t' = prune_row n t := by
  have hprune : ∀ n, taskById (db_prune_expired n s) i = some t' →
      t' = prune_row n t := by
    intro n hh
    unfold taskById db_prune_expired at hh
    dsimp only at hh
    rw [find?_map_prune] at hh
    unfold taskById at h
    rw [h] at hh
    simpa using hh.symm
  cases op with
  | add now region uid days added_by =>
    left
    refine ⟨rfl, ?_⟩
    have := taskById_db_add_task now region uid days added_by s hwf i t h
    unfold applyOp at h'
    rw [this] at h'
    exact (Option.some_injective _ h').symm
  | panel_add now region uid days =>
    left
    refine ⟨rfl, ?_⟩
    unfold applyOp add_task at h'
    dsimp only at h'
    split at h'
    · rw [h] at h'
      exact (Option.some_injective _ h').symm
    · have := taskById_db_add_task now (pystrip region) (pystrip uid) days "panel" s hwf i t h
      rw [this] at h'
      exact (Option.some_injective _ h').symm
  | prune now => exact Or.inr ⟨now, rfl, hprune now h'⟩
  | run env now =>
    refine Or.inr ⟨now, rfl, hprune now ?_⟩
    rwa [show applyOp (.run env now) s = db_prune_expired now s from
      run_all_tasks_sync_fst env now s] at h'
  | tasks_cmd now =>
    refine Or.inr ⟨now, rfl, hprune now ?_⟩
    rwa [show applyOp (.tasks_cmd now) s = db_prune_expired now s from
      cmd_tasks_fst now s] at h'
  | list_active =>
    left
    refine ⟨rfl, ?_⟩
    rw [show applyOp .list_active s = s from rfl, h] at h'
    exact (Option.some_injective _ h').symm
  | list_all =>
    left
    refine ⟨rfl, ?_⟩
    rw [show applyOp .list_all s = s from rfl, h] at h'
    exact (Option.some_injective _ h').symm

/-- A row that appears under an id the table did not have was just
inserted, and every insert sets `active=1`. -/
theorem taskById_new (op : Op) (s : Store) (i : Nat) (t' : Task)
    (h : taskById s i = none) (h' : taskById (applyOp op s) i = some t') :
    t'.active = true := by
  have hadd : ∀ now region uid days added_by,
      taskById (db_add_task now region uid days added_by s) i = some t' →
      t'.active = true := by
    intro now region uid days added_by hh
    unfold taskById at hh h
    rw [db_add_task_rows, List.find?_cons] at hh
    rcases hb : (s.nextId == i) with _ | _
    · rw [hb] at hh
      rw [h] at hh
      cases hh
    · rw [hb] at hh
      have := Option.some_injective _ hh
      rw [← this]
  have hpr : ∀ n, taskById (db_prune_expired n s) i = some t' → False := by
    intro n hh
    unfold taskById db_prune_expired at hh
    dsimp only at hh
    rw [find?_map_prune] at hh
    unfold taskById at h
    rw [h] at hh
    cases hh
  cases op with
  | add now region uid days added_by => exact hadd now region uid days added_by h'
  | panel_add now region uid days =>
    unfold applyOp add_task at h'
    dsimp only at h'
    split at h'
    · rw [h] at h'
      cases h'
    · exact hadd now (pystrip region) (pystrip uid) days "panel" h'
  | prune now => exact absurd h' (fun hh => hpr now hh)
  | run env now =>
    refine absurd ?_ (fun hh => hpr now hh)
    rwa [show applyOp (.run env now) s = db_prune_expired now s from
      run_all_tasks_sync_fst env now s] at h'
  | tasks_cmd now =>
    refine absurd ?_ (fun hh => hpr now hh)
    rwa [show applyOp (.tasks_cmd now) s = db_prune_expired now s from
      cmd_tasks_fst now s] at h'
  | list_active =>
    rw [show applyOp .list_active s = s from rfl, h] at h'
    cases h'
  | list_all =>
    rw [show applyOp .list_all s = s from rfl, h] at h'
    cases h'

/-! Concrete fixtures used to instantiate the hypothesis-bearing
theorems. -/

/-- A concrete row. -/
def sampleTask (i : Nat) (exp : Int) (act : Bool) : Task :=
  { id := i, region := "ME", uid := "111", days := 1, expiry_utc := exp,
    added_by := "panel", added_at_utc := 0, active := act }

/-- A well-formed two-row table: one live task, one past expiry. -/
def sampleStore : Store := ⟨3, [sampleTask 2 100 true, sampleTask 1 (-5) true]⟩

/-- A well-formed one-row table with a single live task. -/
def oneTaskStore : Store := ⟨2, [sampleTask 1 100 true]⟩

/-! The claims. -/

/-- C2: a task stored by the add operation has
`expiry_utc = added_at_utc + days` (whole days of 86400 seconds), the
value is fixed at creation, and no entry point ever re-dates a stored
task: expiry, creation time and days survive every operation. -/
theorem task_expiry_fixed :
    (∀ now region uid days added_by s, ∃ t,
        (db_add_task now region uid days added_by s).rows = t :: s.rows ∧
        t.expiry_utc = t.added_at_utc + days * 86400 ∧
        t.added_at_utc = now ∧ t.days = days) ∧
    (∀ op s, Store.WF s → ∀ i t t', taskById s i = some t →
        taskById (applyOp op s) i = some t' →
        t'.expiry_utc = t.expiry_utc ∧ t'.added_at_utc = t.added_at_utc ∧
        t'.days = t.days) := by
  constructor
  · intro now region uid days added_by s
    exact ⟨_, db_add_task_rows now region uid days added_by s, rfl, rfl, rfl⟩
  · intro op s hwf i t t' h h'
    rcases taskById_step op s hwf i t t' h h' with ⟨_, rfl⟩ | ⟨n, _, rfl⟩
    · exact ⟨rfl, rfl, rfl⟩
    · obtain ⟨_, _, _, hdays, hexp, _, hadd⟩ := prune_row_fields n t
      exact ⟨hexp, hadd, hdays⟩

/-- C3 counterexample: the panel add with the non-positive value
`days = -1` is not rejected — the call reports success and a task is
inserted into the empty store, against the claim that no task is created
and a ValidationError is reported. -/
theorem add_nonpositive_days_cex :
    (-1 : Int) ≤ 0 ∧
    (add_task 0 "ME" "123" (-1) Store.empty).2 = true ∧
    (add_task 0 "ME" "123" (-1) Store.empty).1.rows.length = 1 := by
  refine ⟨by norm_num, by decide, by decide⟩

/-- C3 (amended): the panel add route rejects an empty (after trimming)
region or uid — a warning is flashed, no task is created, the store is
unchanged — but `days` is never validated: any integer, including a
non-positive one, passes and the insert happens. -/
theorem add_validation (now : Int) (region uid : String) (days : Int)
    (s : Store) :
    ((pystrip region = "" ∨ pystrip uid = "") →
      add_task now region uid days s = (s, false)) ∧
    (pystrip region ≠ "" → pystrip uid ≠ "" →
      add_task now region uid days s =
        (db_add_task now (pystrip region) (pystrip uid) days "panel" s, true) ∧
      (add_task now region uid days s).1.rows.length = s.rows.length + 1) := by
  constructor
  · intro h
    rcases h with h | h <;> simp [add_task, h]
  · intro h1 h2
    constructor
    · simp [add_task, h1, h2]
    · simp [add_task, h1, h2, db_add_task_rows]

/-- C4: the active listing returns exactly the rows with `active=1`, the
full listing returns every row, both ordered newest-first (strictly
descending ids, the stored order under `Store.WF`); both listings are
pure reads of the store. -/
theorem db_list_tasks_spec (s : Store) (hwf : s.WF) :
    (∀ t, t ∈ db_list_tasks false s ↔ t ∈ s.rows ∧ t.active = true) ∧
    db_list_tasks true s = s.rows ∧
    (db_list_tasks false s).Pairwise (fun a b => b.id < a.id) ∧
    (db_list_tasks true s).Pairwise (fun a b => b.id < a.id) := by
  have hfalse : db_list_tasks false s = s.rows.filter (fun t => t.active) := rfl
  have htrue : db_list_tasks true s = s.rows := rfl
  refine ⟨?_, htrue, ?_, ?_⟩
  · intro t
    rw [hfalse]
    simp [List.mem_filter]
  · rw [hfalse]
    exact List.Pairwise.sublist (List.filter_sublist s.rows) hwf.1
  · rw [htrue]
    exact hwf.1

/-- C4 witness: the listing specification instantiated on a concrete
well-formed two-row store. -/
theorem db_list_tasks_spec_witness :
    (∀ t, t ∈ db_list_tasks false sampleStore ↔
        t ∈ sampleStore.rows ∧ t.active = true) ∧
    db_list_tasks true sampleStore = sampleStore.rows ∧
    (db_list_tasks false sampleStore).Pairwise (fun a b => b.id < a.id) ∧
    (db_list_tasks true sampleStore).Pairwise (fun a b => b.id < a.id) :=
  db_list_tasks_spec sampleStore (by decide)

/-- C5: pruning twice at one instant equals pruning once — the stores
coincide, hence in particular the active task sets coincide. -/
theorem prune_idempotent (now : Int) (s : Store) :
    db_prune_expired now (db_prune_expired now s) = db_prune_expired now s ∧
    db_list_tasks false (db_prune_expired now (db_prune_expired now s)) =
      db_list_tasks false (db_prune_expired now s) := by
  have h : db_prune_expired now (db_prune_expired now s) =
      db_prune_expired now s := by
    simp only [db_prune_expired, List.map_map]
    congr 1
    apply List.map_congr_left
    intro t _
    exact prune_row_idem now t
  exact ⟨h, by rw [h]⟩

/-- Re-activating a copy of a row that was already active gives the row
back. -/
theorem set_active_true_of_active (t : Task) (h : t.active = true) :
    ({ t with active := true } : Task) = t := by
  cases t
  simp_all

/-- C6: pruning sets `active=0` exactly on the rows that were active with
expiry before `now` and changes nothing else — no row is deleted, the
counter and every other field of every row are kept — so the active
listing afterwards holds no expired task while the full listing still
carries the pruned rows with `active=0`. -/
theorem prune_exact (now : Int) (s : Store) :
    (db_prune_expired now s).nextId = s.nextId ∧
    (db_prune_expired now s).rows.length = s.rows.length ∧
    (∀ t ∈ s.rows, t.active = true → t.expiry_utc < now →
      ({ t with active := false } : Task) ∈ (db_prune_expired now s).rows ∧
      ({ t with active := false } : Task) ∈
        db_list_tasks true (db_prune_expired now s)) ∧
    (∀ t ∈ s.rows, ¬(t.active = true ∧ t.expiry_utc < now) →
      t ∈ (db_prune_expired now s).rows) ∧
    (∀ t' ∈ (db_prune_expired now s).rows,
      t' ∈ s.rows ∨
        (t'.active = false ∧ t'.expiry_utc < now ∧
          ({ t' with active := true } : Task) ∈ s.rows)) ∧
    (∀ t' ∈ db_list_tasks false (db_prune_expired now s),
      now ≤ t'.expiry_utc ∧ t' ∈ s.rows) := by
  have hrows : (db_prune_expired now s).rows = s.rows.map (prune_row now) := rfl
  refine ⟨rfl, by rw [hrows, List.length_map], ?_, ?_, ?_, ?_⟩
  · intro t ht ha he
    have hmem : ({ t with active := false } : Task) ∈
        s.rows.map (prune_row now) :=
      List.mem_map.mpr ⟨t, ht, prune_row_of_hit now t ⟨ha, he⟩⟩
    constructor
    · rw [hrows]
      exact hmem
    · show ({ t with active := false } : Task) ∈ (db_prune_expired now s).rows
      rw [hrows]
      exact hmem
  · intro t ht hno
    rw [hrows]
    exact List.mem_map.mpr ⟨t, ht, prune_row_id_of_not_hit now t hno⟩
  · intro t' ht'
    rw [hrows] at ht'
    obtain ⟨u, hu, rfl⟩ := List.mem_map.mp ht'
    by_cases hhit : u.active = true ∧ u.expiry_utc < now
    · right
      rw [prune_row_of_hit now u hhit]
      refine ⟨rfl, hhit.2, ?_⟩
      have hre : ({ { u with active := false } with active := true } : Task) =
          ({ u with active := true } : Task) := rfl
      rw [hre, set_active_true_of_active u hhit.1]
      exact hu
    · left
      rw [prune_row_id_of_not_hit now u hhit]
      exact hu
  · intro t' ht'
    have hflt : t' ∈ (s.rows.map (prune_row now)).filter (fun t => t.active) :=
      ht'
    obtain ⟨hmem, hact⟩ := List.mem_filter.mp hflt
    obtain ⟨u, hu, rfl⟩ := List.mem_map.mp hmem
    by_cases hhit : u.active = true ∧ u.expiry_utc < now
    · rw [prune_row_of_hit now u hhit] at hact
      simp at hact
    · rw [prune_row_id_of_not_hit now u hhit] at hact ⊢
      refine ⟨le_of_not_lt (fun hlt => hhit ⟨by simpa using hact, hlt⟩), hu⟩

/-- C9: across every entry point a task is inserted with `active=1`, an
inactive task stays inactive and wholly untouched, and the only change
of `active` is true to false, performed by the pruning UPDATE of an
operation that prunes, at an instant past the task's expiry — no
operation ever resurrects a task. -/
theorem active_transitions (op : Op) (s : Store) (hwf : s.WF) (i : Nat) :
    (∀ t t', taskById s i = some t → taskById (applyOp op s) i = some t' →
      (t.active = false → t' = t) ∧
      (t.active = true → t'.active = false →
        ∃ n, pruneTime op = some n ∧ t.expiry_utc < n ∧
          t' = { t with active := false })) ∧
    (taskById s i = none → ∀ t', taskById (applyOp op s) i = some t' →
      t'.active = true) := by
  constructor
  · intro t t' h h'
    rcases taskById_step op s hwf i t t' h h' with ⟨hn, rfl⟩ | ⟨n, hn, rfl⟩
    · refine ⟨fun _ => rfl, fun ha ha' => ?_⟩
      rw [ha] at ha'
      cases ha'
    · constructor
      · intro hf
        exact prune_row_id_of_not_hit n t (by simp [hf])
      · intro ha ha'
        have hact := prune_row_active n t
        rw [ha', ha] at hact
        have hlt : t.expiry_utc < n := by
          by_contra hc
          simp [hc] at hact
        exact ⟨n, hn, hlt, prune_row_of_hit n t ⟨ha, hlt⟩⟩
  · intro h t' h'
    exact taskById_new op s i t' h h'

/-- C9 witness: the lifecycle statement instantiated at a concrete prune
over a concrete well-formed store. -/
theorem active_transitions_witness :
    (∀ t t', taskById sampleStore 1 = some t →
      taskById (applyOp (Op.prune 0) sampleStore) 1 = some t' →
      (t.active = false → t' = t) ∧
      (t.active = true → t'.active = false →
        ∃ n, pruneTime (Op.prune 0) = some n ∧ t.expiry_utc < n ∧
          t' = { t with active := false })) ∧
    (taskById sampleStore 1 = none → ∀ t',
      taskById (applyOp (Op.prune 0) sampleStore) 1 = some t' →
      t'.active = true) :=
  active_transitions (Op.prune 0) sampleStore (by decide) 1

/-- A well-formed table of 51 live tasks, ids 51 down to 1. -/
def bigStore : Store :=
  ⟨52, (List.range 51).reverse.map (fun k => sampleTask (k + 1) 100 true)⟩

/-- C10: the `/tasks` chat reply shows at most the first 50 active tasks —
when more than 50 rows are active after the prune, the reply is exactly
the joined lines of the first 50 of the newest-first active listing, a
truncation the spec never mentions. -/
theorem cmd_tasks_limit (now : Int) (s : Store)
    (h : 50 < (db_list_tasks false (db_prune_expired now s)).length) :
    (cmd_tasks now s).2 = String.intercalate "\n"
      (((db_list_tasks false (db_prune_expired now s)).take 50).map
        fmt_task_line) ∧
    ((db_list_tasks false (db_prune_expired now s)).take 50).length = 50 := by
  have hne : (db_list_tasks false (db_prune_expired now s)).isEmpty = false := by
    cases hl : db_list_tasks false (db_prune_expired now s) with
    | nil => rw [hl] at h; simp at h
    | cons a l => rfl
  constructor
  · unfold cmd_tasks
    dsimp only
    rw [hne]
    rfl
  · rw [List.length_take]
    omega

/-- C10 witness: the truncation instantiated on a concrete 51-task
store. -/
theorem cmd_tasks_limit_witness :
    (cmd_tasks 0 bigStore).2 = String.intercalate "\n"
      (((db_list_tasks false (db_prune_expired 0 bigStore)).take 50).map
        fmt_task_line) ∧
    ((db_list_tasks false (db_prune_expired 0 bigStore)).take 50).length = 50 :=
  cmd_tasks_limit 0 bigStore (by decide)

/-- An environment whose Like-API always answers status 200 with a body
that parses to the empty JSON object, and whose Telegram sends succeed. -/
def emptyBodyEnv : Env :=
  { api := fun _ _ => .response 200 (some []), notify_ok := fun _ => true }

/-- C1 counterexample: one active task whose Like-API call yields a
successfully parsed status-200 result — the empty object — so the claim
demands a count of 1 and one attempted notification; the code returns 0
and attempts none, because Python's `if not result` treats the falsy
empty dict like `None`. -/
theorem run_all_empty_result_cex :
    hit_like (emptyBodyEnv.api "ME" "111") = some [] ∧
    (db_list_tasks false (db_prune_expired 0 oneTaskStore)).length = 1 ∧
    (run_all_tasks_sync emptyBodyEnv 0 oneTaskStore).2.sent = 0 ∧
    (run_all_tasks_sync emptyBodyEnv 0 oneTaskStore).2.attempted = [] := by
  refine ⟨by decide, by decide, by decide, by decide⟩

/-- C1 (amended): `run_all_tasks_sync` returns the number of listed
active tasks whose Like-API call produced a truthy result — successfully
parsed, status 200 and not the empty object — and attempts exactly one
notification per such task, in the listing's newest-first order; over
zero active tasks it returns 0 and attempts none. -/
theorem run_all_count_spec (env : Env) (now : Int) (s : Store) :
    (run_all_tasks_sync env now s).2.sent =
      ((db_list_tasks false (db_prune_expired now s)).filter
        (fun t => truthy (hit_like (env.api t.region t.uid)))).length ∧
    (run_all_tasks_sync env now s).2.attempted =
      ((db_list_tasks false (db_prune_expired now s)).filter
        (fun t => truthy (hit_like (env.api t.region t.uid)))).map
        (fun t => fmt_message t ((hit_like (env.api t.region t.uid)).getD [])) ∧
    (db_list_tasks false (db_prune_expired now s) = [] →
      (run_all_tasks_sync env now s).2.sent = 0 ∧
      (run_all_tasks_sync env now s).2.attempted = []) := by
  obtain ⟨h1, h2, h3⟩ :=
    run_loop_spec env (db_list_tasks false (db_prune_expired now s))
  refine ⟨h1, h2, ?_⟩
  intro h0
  have e : (run_all_tasks_sync env now s).2 =
      run_loop env (db_list_tasks false (db_prune_expired now s)) := rfl
  constructor
  · rw [e, h1, h0]
    simp
  · rw [e, h2, h0]
    simp

/-- C7: `hit_like` yields `None` — without raising, being a total
function — on a non-200 status, on a transport error, and on an
unparsable status-200 body; inside the run a task whose call yielded
`None` is skipped: it never enters the truthy-result sublist whose length
is the returned count. -/
theorem api_failure_skipped (env : Env) (now : Int) (s : Store) :
    (∀ status body, status ≠ 200 →
      hit_like (.response status body) = none) ∧
    hit_like .transport_error = none ∧
    hit_like (.response 200 none) = none ∧
    (run_all_tasks_sync env now s).2.sent =
      ((db_list_tasks false (db_prune_expired now s)).filter
        (fun t => truthy (hit_like (env.api t.region t.uid)))).length ∧
    (∀ t, hit_like (env.api t.region t.uid) = none →
      t ∉ (db_list_tasks false (db_prune_expired now s)).filter
        (fun t => truthy (hit_like (env.api t.region t.uid)))) := by
  refine ⟨?_, rfl, rfl, (run_loop_spec env _).1, ?_⟩
  · intro status body h
    simp [hit_like, h]
  · intro t ht hmem
    have hh := (List.mem_filter.mp hmem).2
    rw [ht] at hh
    simp [truthy] at hh

/-- C8: a Telegram delivery failure is swallowed inside
`send_group_message` (a total function), never reaching the run: the
returned count always equals the number of attempted notifications,
delivery failures only shrink the delivered sublist, and any two
environments with the same Like-API behaviour yield the same count and
the same attempts whatever their delivery outcomes. -/
theorem notify_failure_harmless (env env' : Env) (now : Int) (s : Store)
    (hapi : env'.api = env.api) :
    (run_all_tasks_sync env now s).2.sent =
      (run_all_tasks_sync env now s).2.attempted.length ∧
    (run_all_tasks_sync env now s).2.delivered =
      (run_all_tasks_sync env now s).2.attempted.filter env.notify_ok ∧
    (run_all_tasks_sync env' now s).2.sent =
      (run_all_tasks_sync env now s).2.sent ∧
    (run_all_tasks_sync env' now s).2.attempted =
      (run_all_tasks_sync env now s).2.attempted := by
  obtain ⟨h1, h2, h3⟩ :=
    run_loop_spec env (db_list_tasks false (db_prune_expired now s))
  obtain ⟨h1', h2', h3'⟩ :=
    run_loop_spec env' (db_list_tasks false (db_prune_expired now s))
  have e : (run_all_tasks_sync env now s).2 =
      run_loop env (db_list_tasks false (db_prune_expired now s)) := rfl
  have e' : (run_all_tasks_sync env' now s).2 =
      run_loop env' (db_list_tasks false (db_prune_expired now s)) := rfl
  refine ⟨?_, ?_, ?_, ?_⟩
  · rw [e, h1, h2, List.length_map]
  · rw [e, h3]
  · rw [e, e', h1, h1', hapi]
  · rw [e, e', h2, h2', hapi]

/-- An environment whose Like-API always answers with a one-field object
and whose Telegram sends succeed. -/
def apiOkEnv : Env :=
  { api := fun _ _ => .response 200 (some [("PlayerName", "X")]),
    notify_ok := fun _ => true }

/-- The same Like-API behaviour with every Telegram send failing. -/
def apiOkNoNotifyEnv : Env :=
  { api := apiOkEnv.api, notify_ok := fun _ => false }

/-- C8 witness: the notifier-independence statement instantiated on a
concrete store and two concrete environments that differ only in whether
the Telegram send succeeds. -/
theorem notify_failure_harmless_witness :
    (run_all_tasks_sync apiOkEnv 0 oneTaskStore).2.sent =
      (run_all_tasks_sync apiOkEnv 0 oneTaskStore).2.attempted.length ∧
    (run_all_tasks_sync apiOkEnv 0 oneTaskStore).2.delivered =
      (run_all_tasks_sync apiOkEnv 0 oneTaskStore).2.attempted.filter
        apiOkEnv.notify_ok ∧
    (run_all_tasks_sync apiOkNoNotifyEnv 0 oneTaskStore).2.sent =
      (run_all_tasks_sync apiOkEnv 0 oneTaskStore).2.sent ∧
    (run_all_tasks_sync apiOkNoNotifyEnv 0 oneTaskStore).2.attempted =
      (run_all_tasks_sync apiOkEnv 0 oneTaskStore).2.attempted :=
  notify_failure_harmless apiOkEnv apiOkNoNotifyEnv 0 oneTaskStore rfl

end Royalkaauto
